import Mathlib

/-!
Shallow embedding of `server.js` from the eco-verify backend.

The server is an Express application with three parts:
* a generic client for the remote Fone node (`assertFoneConfigured`,
  `normBase`, `callFone`),
* a Postgres-backed ledger (`wallets`, `user_state`, `mission_completion`
  tables with helpers `ensureWalletRow`, `addCreditsAndReputation`),
* HTTP handlers binding the two (`/api/health`, `/api/fone/*`,
  `/api/app/*`).

JavaScript values that flow through request bodies and remote responses are
modelled by a small `Json` type together with JS truthiness (`jtruthy`),
`String(...)` coercion (`jsToString`) and `Number(...)` coercion
(`jsNumber`).  Numbers are modelled as `Rat` (JS floats never overflow in
the ranges exercised here); `NaN` is modelled as `none` in `Option Rat`.
Timestamps (`created_at`, `updated_at`) are not observable through any
endpoint and are omitted from the row models.  The database engine itself
is external: queries are modelled by their effect on the three tables.
-/

/-- A JSON / JavaScript value as it appears in request and response bodies. -/
inductive Json where
  | null : Json
  | bool : Bool → Json
  | num : Rat → Json
  | str : String → Json
  | arr : List Json → Json
  | obj : List (String × Json) → Json
deriving Repr

/-- JavaScript truthiness of a value (`if (v)`): `null`, `false`, `0` and
`""` are falsy; arrays and objects are always truthy. -/
def jtruthy : Json → Bool
  | .null => false
  | .bool b => b
  | .num q => q != 0
  | .str s => s != ""
  | .arr _ => true
  | .obj _ => true

/-- Truthiness of a possibly-absent value (`undefined` is falsy). -/
def otruthy : Option Json → Bool
  | some j => jtruthy j
  | none => false

/-- JavaScript `a || b` for a possibly-absent left operand. -/
def jsOr (o : Option Json) (d : Json) : Json :=
  match o with
  | some j => if jtruthy j then j else d
  | none => d

mutual

/-- JavaScript `String(v)` coercion.  Non-integer rationals and array
element formatting are approximated (JS prints floats in decimal and maps
`null` array elements to the empty string); no claim stringifies such
values. -/
def jsToString : Json → String
  | .null => "null"
  | .bool true => "true"
  | .bool false => "false"
  | .num q => if q.den = 1 then toString q.num else toString q
  | .str s => s
  | .arr xs => String.intercalate "," (jsToStringList xs)
  | .obj _ => "[object Object]"

def jsToStringList : List Json → List String
  | [] => []
  | j :: rest => jsToString j :: jsToStringList rest

end

/-- Digit list to natural number (most significant digit first). -/
def natListVal (cs : List Char) : Nat :=
  cs.foldl (fun n c => n * 10 + (c.toNat - 48)) 0

/-- Parse an unsigned decimal (optionally with a fractional part).
`none` models `NaN`. -/
def parseUnsigned (cs : List Char) : Option Rat :=
  let p := cs.span (·.isDigit)
  match p.2 with
  | [] => if p.1 = [] then none else some (natListVal p.1 : Rat)
  | '.' :: frac =>
    if frac.all (·.isDigit) && !(p.1 = [] && frac = []) then
      some ((natListVal p.1 : Rat) + (natListVal frac : Rat) / ((10 : Rat) ^ frac.length))
    else none
  | _ => none

/-- JavaScript `Number(string)` coercion: trimmed empty string is `0`,
signed decimal notation is parsed, anything else is `NaN` (`none`).
Exponent and hexadecimal forms are not modelled; no claim uses them. -/
def parseJsNumber (s : String) : Option Rat :=
  let t := s.trim
  if t = "" then some 0
  else
    match t.data with
    | '-' :: rest => (parseUnsigned rest).map (fun q => -q)
    | '+' :: rest => parseUnsigned rest
    | cs => parseUnsigned cs

/-- JavaScript `Number(v)` coercion; `none` models `NaN`.  Arrays coerce
through their string form, matching `Number(String(v))`. -/
def jsNumber : Json → Option Rat
  | .null => some 0
  | .bool b => some (if b then 1 else 0)
  | .num q => some q
  | .str s => parseJsNumber s
  | .arr xs => parseJsNumber (jsToString (.arr xs))
  | .obj _ => none

/-- Pure field lookup on a JSON value: `none` when the value is not an
object or lacks the field.  This is the observation used to read fields of
objects the model itself constructs; JavaScript property access with its
null-throwing semantics is `jsGetProp` below. -/
def getField : Json → String → Option Json
  | .obj fs, k => fs.lookup k
  | _, _ => none

/-- The message of the `TypeError` thrown by reading property `k` of
`null`. -/
def typeErrorNullRead (k : String) : String :=
  "Cannot read properties of null (reading \x27" ++ k ++ "\x27)"

/-- JavaScript property access `v.k`: reading a property of `null` throws
a `TypeError` (modelled as `Except.error` with its message); on any other
non-object value the access yields `undefined` (`none`); on an object it
is a field lookup. -/
def jsGetProp (v : Json) (k : String) : Except String (Option Json) :=
  match v with
  | .null => .error (typeErrorNullRead k)
  | .obj fs => .ok (fs.lookup k)
  | _ => .ok none

/-- An HTTP response produced by a handler: status code plus JSON body. -/
structure HttpResponse where
  status : Nat
  body : Json
deriving Repr

/-- A row of the `user_state` table (`credits NUMERIC`, `reputation
INTEGER`, both nullable with default 0; `updated_at` omitted).  The
`reputation` column is modelled as `Rat` because the values stored flow
from JS numbers. -/
structure UserRow where
  addr : String
  credits : Option Rat
  reputation : Option Rat
deriving Repr, DecidableEq

/-- A row of the `mission_completion` table (`id SERIAL`, `created_at`
omitted).  `none` in `reward`/`reputation` models a `NaN` parameter. -/
structure MissionRow where
  id : Nat
  addr : String
  mission_id : String
  report : String
  reward : Option Rat
  reputation : Option Rat
deriving Repr, DecidableEq

/-- The database state: the three tables created by `initDb`, plus the
`SERIAL` sequence backing `mission_completion.id`. -/
structure DB where
  wallets : List String
  userState : List UserRow
  missions : List MissionRow
  missionSeq : Nat
deriving Repr

/-- The state produced by `initDb` on a fresh database. -/
def emptyDB : DB := ⟨[], [], [], 0⟩

/-- A freshly inserted `user_state` row: both columns take their declared
default 0. -/
def zeroRow (a : String) : UserRow := ⟨a, some 0, some 0⟩

/-- `INSERT INTO wallets (addr) VALUES ($1) ON CONFLICT (addr) DO
NOTHING`. -/
def insertWalletIgnore (db : DB) (a : String) : DB :=
  if db.wallets.contains a then db else { db with wallets := db.wallets ++ [a] }

/-- `INSERT INTO user_state (addr) VALUES ($1) ON CONFLICT (addr) DO
NOTHING`: the other columns take their declared defaults. -/
def insertUserStateIgnore (db : DB) (a : String) : DB :=
  if db.userState.any (fun r => r.addr == a) then db
  else { db with userState := db.userState ++ [zeroRow a] }

/-- `ensureWalletRow(addr)`: no-op on a falsy address, otherwise the two
insert-or-ignore statements in sequence.  SQL parameters are JS values
converted to text. -/
def ensureWalletRow (db : DB) (addr : Json) : DB :=
  if !(jtruthy addr) then db
  else insertUserStateIgnore (insertWalletIgnore db (jsToString addr)) (jsToString addr)

/-- `COALESCE(cur, 0) + delta` where `delta` may be `NaN` (`none`). -/
def deltaAdd (cur d : Option Rat) : Option Rat :=
  match d with
  | some dv => some (cur.getD 0 + dv)
  | none => none

/-- The per-row effect of the `UPDATE user_state SET credits =
COALESCE(credits,0)+$2, reputation = COALESCE(reputation,0)+$3 WHERE addr =
$1` statement. -/
def updFn (a : String) (c r : Option Rat) (row : UserRow) : UserRow :=
  if row.addr == a then
    { row with credits := deltaAdd row.credits c, reputation := deltaAdd row.reputation r }
  else row

/-- `addCreditsAndReputation(addr, creditsDelta, repDelta)`: ensure the
wallet rows exist, then apply the additive update to every matching
`user_state` row. -/
def addCreditsAndReputation (db : DB) (addr : Json) (creditsDelta repDelta : Option Rat) : DB :=
  let db1 := ensureWalletRow db addr
  { db1 with userState := db1.userState.map (updFn (jsToString addr) creditsDelta repDelta) }

/-- Truthiness of a string (route parameters are always strings). -/
def strTruthy (s : String) : Bool := s != ""

/-- `GET /api/app/user/:addr/state`: 400 on a falsy address, otherwise
`SELECT credits, reputation FROM user_state WHERE addr = $1`, answering
zeros when no row exists and `Number(col || 0)` of the columns otherwise. -/
def getStateHandler (db : DB) (addr : String) : HttpResponse :=
  if !(strTruthy addr) then ⟨400, .obj [("error", .str "addr required")]⟩
  else
    match db.userState.filter (fun r => r.addr == addr) with
    | [] => ⟨200, .obj [("addr", .str addr), ("credits", .num 0), ("reputation", .num 0)]⟩
    | row :: _ =>
      ⟨200, .obj [("addr", .str addr), ("credits", .num (row.credits.getD 0)),
        ("reputation", .num (row.reputation.getD 0))]⟩

/-- `report || ''` as stored in the `report` text column. -/
def jsOrEmptyStr (o : Option Json) : String := jsToString (jsOr o (.str ""))

/-- `INSERT INTO mission_completion (addr, mission_id, report, reward,
reputation) VALUES ($1,$2,$3,$4,$5)`; the `SERIAL` id is the next sequence
value. -/
def insertMission (db : DB) (a m rep : String) (rw rp : Option Rat) : DB :=
  let row : MissionRow := ⟨db.missionSeq + 1, a, m, rep, rw, rp⟩
  { db with missions := db.missions ++ [row], missionSeq := db.missionSeq + 1 }

/-- `POST /api/app/mission/completed`: validate `addr` and `missionId` by
truthiness, coerce `reward || 0` and `reputation || 0` to numbers, ensure
the wallet rows, append the history row, then apply the deltas. -/
def missionCompleted (db : DB) (addr missionId reward reputation report : Option Json) :
    DB × HttpResponse :=
  if !(otruthy addr) || !(otruthy missionId) then
    (db, ⟨400, .obj [("error", .str "addr and missionId are required")]⟩)
  else
    let a := addr.getD .null
    let rewardNum := jsNumber (jsOr reward (.num 0))
    let repNum := jsNumber (jsOr reputation (.num 0))
    let db1 := ensureWalletRow db a
    let db2 := insertMission db1 (jsToString a) (jsToString (missionId.getD .null))
      (jsOrEmptyStr report) rewardNum repNum
    let db3 := addCreditsAndReputation db2 a rewardNum repNum
    (db3, ⟨200, .obj [("ok", .bool true)]⟩)

/-- The remote-node configuration read from the environment at startup:
`FONE_BASE_URL` and `FONE_SDK_KEY` (`none` models an unset variable). -/
structure FoneConfig where
  baseUrl : Option String
  sdkKey : Option String

/-- Truthiness of an environment variable: unset or empty is falsy. -/
def truthyEnv : Option String → Bool
  | some s => s != ""
  | none => false

/-- `!!(FONE_BASE_URL && FONE_SDK_KEY)`: both variables set and nonempty. -/
def foneConfigured (cfg : FoneConfig) : Bool :=
  truthyEnv cfg.baseUrl && truthyEnv cfg.sdkKey

/-- The message of the error thrown by `assertFoneConfigured`. -/
def foneNotConfiguredMsg : String :=
  "Fone API not configured (FONE_BASE_URL / FONE_SDK_KEY missing)"

/-- `normBase(u)`: `(u || '').replace(/\/+$/, '')` — trailing slashes
stripped from the configured base URL. -/
def normBase (u : Option String) : String :=
  String.mk (((u.getD "").data.reverse.dropWhile (· = '/')).reverse)

/-- The request handed to `fetch`: URL, method, headers and an optional
JSON body (serialization of the body is the JSON library's concern and is
left structured here; a falsy body is not attached). -/
structure FoneRequest where
  url : String
  method : String
  headers : List (String × String)
  body : Option Json

/-- A remote response as observed through `fetch`: status code, status
phrase and body text.  `bodyJson` is `JSON.parse(bodyText)` (`none` when
the text does not parse); the parser itself is a library function and is
carried as part of the observed response. -/
structure FoneResponse where
  status : Nat
  statusText : String
  bodyText : String
  bodyJson : Option Json

/-- `res.ok`: status in the 200–299 range. -/
def resOk (r : FoneResponse) : Bool :=
  200 ≤ r.status && r.status < 300

/-- `txt ? JSON.parse(txt) : {}` with the parse failure handler wrapping
the raw text: the caller always receives a structured value. -/
def foneData (r : FoneResponse) : Json :=
  if r.bodyText = "" then .obj []
  else
    match r.bodyJson with
    | some j => j
    | none => .obj [("raw", .str r.bodyText)]

/-- `data.error || res.statusText || `HTTP ${res.status}`` once the
`data.error` read produced `e` without throwing. -/
def foneDerivedMsg (e : Option Json) (r : FoneResponse) : String :=
  match e with
  | some ej =>
    if jtruthy ej then jsToString ej
    else if r.statusText != "" then r.statusText else "HTTP " ++ toString r.status
  | none =>
    if r.statusText != "" then r.statusText else "HTTP " ++ toString r.status

/-- The message of the exception escaping the non-success branch: reading
`data.error` itself throws a `TypeError` when the parsed body is JSON
`null` (that `TypeError` escapes before `new Error(msg)` is built);
otherwise the thrown `Error` carries the derived message.  Either way the
message is a function of the response alone. -/
def foneFailMsg (r : FoneResponse) : String :=
  match jsGetProp (foneData r) "error" with
  | .error t => t
  | .ok e => foneDerivedMsg e r

/-- The request `callFone` builds once configuration passed: normalized
base URL concatenated with the path, the `api-key` and `Accept` headers,
`Content-Type` and a body only when the body is truthy. -/
def mkFoneRequest (cfg : FoneConfig) (path method : String) (body : Option Json) :
    FoneRequest :=
  { url := normBase cfg.baseUrl ++ path,
    method := method,
    headers := [("api-key", cfg.sdkKey.getD ""), ("Accept", "application/json")] ++
      (if otruthy body then [("Content-Type", "application/json")] else []),
    body := if otruthy body then body else none }

/-- `callFone(path, method, body)`: fail with the not-configured error
before any network activity when either credential is missing; otherwise
issue the request and either return the structured body (success status)
or fail with the derived message. -/
def callFone (cfg : FoneConfig) (remote : FoneRequest → FoneResponse)
    (path method : String) (body : Option Json) : Except String Json :=
  if !(foneConfigured cfg) then .error foneNotConfiguredMsg
  else
    let res := remote (mkFoneRequest cfg path method body)
    if resOk res then .ok (foneData res) else .error (foneFailMsg res)

/-- `POST /api/fone/wallet/create`: delegate to `callFone`; on success
read `data.address` (a `TypeError` on a JSON-null body is caught by the
endpoint like any other failure) and opportunistically register a truthy
address, answering the remote data; on any failure answer 500 with a
fixed generic body. -/
def walletCreateHandler (cfg : FoneConfig) (remote : FoneRequest → FoneResponse)
    (db : DB) : DB × HttpResponse :=
  match callFone cfg remote "/v1/wallet/create" "POST" none with
  | .ok data =>
    match jsGetProp data "address" with
    | .error _ => (db, ⟨500, .obj [("error", .str "Fone API error (create wallet)")]⟩)
    | .ok addrProp =>
      let db1 := match addrProp with
        | some a => if jtruthy a then ensureWalletRow db a else db
        | none => db
      (db1, ⟨200, data⟩)
  | .error _ => (db, ⟨500, .obj [("error", .str "Fone API error (create wallet)")]⟩)

/-- `NaN` serializes as JSON `null` (`JSON.stringify(NaN) === "null"`). -/
def jsNumToJson : Option Rat → Json
  | some q => .num q
  | none => .null

/-- The payload of a transaction send: `{ privateKey, recipient, amount:
Number(amount) }` with `message` attached only when truthy. -/
def sendPayload (pk rec amt : Json) (message : Option Json) : Json :=
  .obj ([("privateKey", pk), ("recipient", rec), ("amount", jsNumToJson (jsNumber amt))] ++
    (match message with
     | some mj => if jtruthy mj then [("message", mj)] else []
     | none => []))

/-- `POST /api/fone/transaction/send`: reject with 400 when any of
`privateKey`, `recipient`, `amount` is falsy; otherwise delegate the
payload to `callFone`, answering 500 with a fixed body on failure. -/
def sendHandler (cfg : FoneConfig) (remote : FoneRequest → FoneResponse)
    (privateKey recipient amount message : Option Json) : HttpResponse :=
  if !(otruthy privateKey) || !(otruthy recipient) || !(otruthy amount) then
    ⟨400, .obj [("error", .str "privateKey, recipient and amount are required")]⟩
  else
    match callFone cfg remote "/v1/transaction/send" "POST"
      (some (sendPayload (privateKey.getD .null) (recipient.getD .null)
        (amount.getD .null) message)) with
    | .ok data => ⟨200, data⟩
    | .error _ => ⟨500, .obj [("error", .str "Fone API error (send)")]⟩

/-- `GET /api/health`: report configuration flags and a database probe,
always answering 200 with `ok: true`.  `probe` is the outcome of
`SELECT 1` (`Except.error` models a thrown database error); it is only
consulted when a connection string is configured. -/
def healthHandler (cfg : FoneConfig) (dbUrl : Option String)
    (probe : Except String Unit) : HttpResponse :=
  let foneC := foneConfigured cfg
  let dbC := truthyEnv dbUrl
  let dbOk := if dbC then (match probe with | .ok _ => true | .error _ => false) else false
  ⟨200, .obj [("ok", .bool true), ("foneConfigured", .bool foneC),
    ("dbConfigured", .bool dbC), ("dbOk", .bool dbOk),
    ("message", .str "Eco-Verify backend is running")]⟩

/-! ### Ledger infrastructure lemmas -/

/-- The effective credits/reputation pair of an address: what the state
endpoint reads back — zeros when no `user_state` row matches, otherwise
null-coalesced reads of the first matching row. -/
def effState (l : List UserRow) (a : String) : Rat × Rat :=
  match l.filter (fun r => r.addr == a) with
  | [] => (0, 0)
  | row :: _ => (row.credits.getD 0, row.reputation.getD 0)

lemma jtruthy_str_of_ne {a : String} (ha : a ≠ "") : jtruthy (.str a) = true := by
  simpa [jtruthy] using ha

lemma updFn_addr (a : String) (c r : Option Rat) (row : UserRow) :
    (updFn a c r row).addr = row.addr := by
  unfold updFn; split <;> rfl

lemma filter_map_updFn (a : String) (c r : Option Rat) (l : List UserRow) :
    (l.map (updFn a c r)).filter (fun x => x.addr == a)
      = (l.filter (fun x => x.addr == a)).map (updFn a c r) := by
  induction l with
  | nil => rfl
  | cons row rest ih =>
    simp only [List.map_cons, List.filter_cons, updFn_addr]
    cases h : (row.addr == a) <;> simp [h, ih]

lemma insertWalletIgnore_userState (db : DB) (a : String) :
    (insertWalletIgnore db a).userState = db.userState := by
  unfold insertWalletIgnore; split <;> rfl

lemma insertWalletIgnore_missions (db : DB) (a : String) :
    (insertWalletIgnore db a).missions = db.missions := by
  unfold insertWalletIgnore; split <;> rfl

lemma insertWalletIgnore_missionSeq (db : DB) (a : String) :
    (insertWalletIgnore db a).missionSeq = db.missionSeq := by
  unfold insertWalletIgnore; split <;> rfl

lemma insertUserStateIgnore_missions (db : DB) (a : String) :
    (insertUserStateIgnore db a).missions = db.missions := by
  unfold insertUserStateIgnore; split <;> rfl

lemma insertUserStateIgnore_missionSeq (db : DB) (a : String) :
    (insertUserStateIgnore db a).missionSeq = db.missionSeq := by
  unfold insertUserStateIgnore; split <;> rfl

lemma insertUserStateIgnore_userState (db : DB) (a : String) :
    (insertUserStateIgnore db a).userState
      = if db.userState.any (fun r => r.addr == a) then db.userState
        else db.userState ++ [zeroRow a] := by
  unfold insertUserStateIgnore; split <;> simp_all

lemma ensureWalletRow_userState (db : DB) {a : String} (ha : a ≠ "") :
    (ensureWalletRow db (.str a)).userState
      = if db.userState.any (fun r => r.addr == a) then db.userState
        else db.userState ++ [zeroRow a] := by
  unfold ensureWalletRow
  rw [jtruthy_str_of_ne ha]
  simp only [Bool.not_true, Bool.false_eq_true, if_false]
  rw [show jsToString (.str a) = a from rfl,
    insertUserStateIgnore_userState, insertWalletIgnore_userState]

lemma ensureWalletRow_missions (db : DB) (j : Json) :
    (ensureWalletRow db j).missions = db.missions := by
  unfold ensureWalletRow
  split
  · rfl
  · rw [insertUserStateIgnore_missions, insertWalletIgnore_missions]

lemma ensureWalletRow_missionSeq (db : DB) (j : Json) :
    (ensureWalletRow db j).missionSeq = db.missionSeq := by
  unfold ensureWalletRow
  split
  · rfl
  · rw [insertUserStateIgnore_missionSeq, insertWalletIgnore_missionSeq]

lemma effState_ensure (db : DB) {a : String} (ha : a ≠ "") :
    effState (ensureWalletRow db (.str a)).userState a = effState db.userState a := by
  rw [ensureWalletRow_userState db ha]
  cases h : db.userState.any (fun r => r.addr == a) with
  | true => simp [h]
  | false =>
    have hf : db.userState.filter (fun r => r.addr == a) = [] := by
      rw [List.filter_eq_nil_iff]
      intro x hx
      simpa using List.any_eq_false.mp h x hx
    simp only [Bool.false_eq_true, if_false]
    unfold effState
    rw [List.filter_append, hf]
    simp [zeroRow]

lemma ensure_filter_ne (db : DB) {a : String} (ha : a ≠ "") :
    (ensureWalletRow db (.str a)).userState.filter (fun r => r.addr == a) ≠ [] := by
  rw [ensureWalletRow_userState db ha]
  cases h : db.userState.any (fun r => r.addr == a) with
  | true =>
    simp only [if_true]
    intro hc
    rw [List.filter_eq_nil_iff] at hc
    obtain ⟨x, hx, hpx⟩ := List.any_eq_true.mp h
    exact hc x hx hpx
  | false =>
    simp only [Bool.false_eq_true, if_false]
    intro hc
    rw [List.filter_append] at hc
    simp [zeroRow] at hc

lemma effState_map_upd (l : List UserRow) (a : String) (c r : Rat)
    (h : l.filter (fun x => x.addr == a) ≠ []) :
    effState (l.map (updFn a (some c) (some r))) a
      = ((effState l a).1 + c, (effState l a).2 + r) := by
  unfold effState
  rw [filter_map_updFn]
  cases hf : l.filter (fun x => x.addr == a) with
  | nil => exact absurd hf h
  | cons row rest =>
    have hrow : (row.addr == a) = true := by
      have hmem : row ∈ l.filter (fun x => x.addr == a) := by
        rw [hf]; exact List.mem_cons_self _ _
      exact (List.mem_filter.mp hmem).2
    simp [updFn, hrow, deltaAdd]

lemma effState_add (db : DB) {a : String} (ha : a ≠ "") (c r : Rat) :
    effState (addCreditsAndReputation db (.str a) (some c) (some r)).userState a
      = ((effState db.userState a).1 + c, (effState db.userState a).2 + r) := by
  unfold addCreditsAndReputation
  dsimp only
  rw [show jsToString (.str a) = a from rfl]
  rw [effState_map_upd _ _ _ _ (ensure_filter_ne db ha), effState_ensure db ha]

lemma getState_eff (db : DB) {a : String} (ha : a ≠ "") :
    getStateHandler db a
      = ⟨200, .obj [("addr", .str a), ("credits", .num (effState db.userState a).1),
          ("reputation", .num (effState db.userState a).2)]⟩ := by
  unfold getStateHandler effState
  have hs : strTruthy a = true := by simpa [strTruthy] using ha
  rw [hs]
  simp only [Bool.not_true, Bool.false_eq_true, if_false]
  cases hf : db.userState.filter (fun r => r.addr == a) <;> simp

lemma addCredits_missions (db : DB) (j : Json) (c r : Option Rat) :
    (addCreditsAndReputation db j c r).missions = db.missions := by
  unfold addCreditsAndReputation
  dsimp only
  rw [ensureWalletRow_missions]

lemma addCredits_missionSeq (db : DB) (j : Json) (c r : Option Rat) :
    (addCreditsAndReputation db j c r).missionSeq = db.missionSeq := by
  unfold addCreditsAndReputation
  dsimp only
  rw [ensureWalletRow_missionSeq]

lemma jsOr_num_zero (q : Rat) : jsNumber (jsOr (some (.num q)) (.num 0)) = some q := by
  unfold jsOr
  cases h : jtruthy (.num q) with
  | true => simp [h, jsNumber]
  | false =>
    have hq : q = 0 := by simpa [jtruthy] using h
    subst hq
    rfl

lemma jsToString_str (s : String) : jsToString (.str s) = s := rfl

lemma jsOrEmptyStr_str (s : String) : jsOrEmptyStr (some (.str s)) = s := by
  unfold jsOrEmptyStr jsOr
  cases h : jtruthy (.str s) with
  | true => simp [h, jsToString_str]
  | false =>
    have hs : s = "" := by simpa [jtruthy] using h
    subst hs
    rfl

lemma insertMission_missions (db : DB) (a m rep : String) (rw rp : Option Rat) :
    (insertMission db a m rep rw rp).missions
      = db.missions ++ [⟨db.missionSeq + 1, a, m, rep, rw, rp⟩] := rfl

lemma insertMission_userState (db : DB) (a m rep : String) (rw rp : Option Rat) :
    (insertMission db a m rep rw rp).userState = db.userState := rfl

lemma insertMission_missionSeq (db : DB) (a m rep : String) (rw rp : Option Rat) :
    (insertMission db a m rep rw rp).missionSeq = db.missionSeq + 1 := rfl

lemma missionCompleted_eq (db : DB) {a m : String} (rep : Option Json) (rw rp : Rat)
    (ha : a ≠ "") (hm : m ≠ "") :
    missionCompleted db (some (.str a)) (some (.str m)) (some (.num rw)) (some (.num rp)) rep
      = (addCreditsAndReputation
          (insertMission (ensureWalletRow db (.str a)) a m (jsOrEmptyStr rep)
            (some rw) (some rp))
          (.str a) (some rw) (some rp),
        ⟨200, .obj [("ok", .bool true)]⟩) := by
  unfold missionCompleted
  have hta : otruthy (some (.str a)) = true := jtruthy_str_of_ne ha
  have htm : otruthy (some (.str m)) = true := jtruthy_str_of_ne hm
  rw [hta, htm]
  simp only [Bool.not_true, Bool.or_self, Bool.false_eq_true, if_false]
  simp only [Option.getD_some, jsOr_num_zero, jsToString_str]

lemma missionCompleted_step (db : DB) {a m : String} (rep : Option Json) (rw rp : Rat)
    (ha : a ≠ "") (hm : m ≠ "") :
    (missionCompleted db (some (.str a)) (some (.str m)) (some (.num rw)) (some (.num rp))
        rep).2 = ⟨200, .obj [("ok", .bool true)]⟩ ∧
    (missionCompleted db (some (.str a)) (some (.str m)) (some (.num rw)) (some (.num rp))
        rep).1.missions
      = db.missions ++ [⟨db.missionSeq + 1, a, m, jsOrEmptyStr rep, some rw, some rp⟩] ∧
    (missionCompleted db (some (.str a)) (some (.str m)) (some (.num rw)) (some (.num rp))
        rep).1.missionSeq = db.missionSeq + 1 ∧
    effState (missionCompleted db (some (.str a)) (some (.str m)) (some (.num rw))
        (some (.num rp)) rep).1.userState a
      = ((effState db.userState a).1 + rw, (effState db.userState a).2 + rp) := by
  rw [missionCompleted_eq db rep rw rp ha hm]
  refine ⟨rfl, ?_, ?_, ?_⟩
  · rw [addCredits_missions, insertMission_missions, ensureWalletRow_missions,
      ensureWalletRow_missionSeq]
  · rw [addCredits_missionSeq, insertMission_missionSeq, ensureWalletRow_missionSeq]
  · rw [effState_add _ ha]
    unfold effState
    rw [insertMission_userState]
    have he := effState_ensure db ha
    unfold effState at he
    rw [he]

/-! ### Claim theorems: ledger endpoints -/

/-- C1: Recording a single mission completion with reward 10 and
reputation 5 for an address with no prior rows appends exactly one
`mission_completion` row carrying those values, and a subsequent
`getState` answers credits 10 and reputation 5. -/
theorem mission_completed_single (db : DB) (a m rep : String)
    (ha : a ≠ "") (hm : m ≠ "")
    (hu : db.userState.filter (fun r => r.addr == a) = [])
    (hmi : db.missions.filter (fun r => r.addr == a) = []) :
    (missionCompleted db (some (.str a)) (some (.str m)) (some (.num 10)) (some (.num 5))
        (some (.str rep))).2 = ⟨200, .obj [("ok", .bool true)]⟩ ∧
    ((missionCompleted db (some (.str a)) (some (.str m)) (some (.num 10)) (some (.num 5))
        (some (.str rep))).1.missions.filter (fun r => r.addr == a)).map
        (fun r => (r.mission_id, r.report, r.reward, r.reputation))
      = [(m, rep, some (10 : Rat), some (5 : Rat))] ∧
    getStateHandler (missionCompleted db (some (.str a)) (some (.str m)) (some (.num 10))
        (some (.num 5)) (some (.str rep))).1 a
      = ⟨200, .obj [("addr", .str a), ("credits", .num 10), ("reputation", .num 5)]⟩ := by
  obtain ⟨h2, hmiss, hseq, heff⟩ :=
    missionCompleted_step db (some (.str rep)) 10 5 ha hm
  have h0 : effState db.userState a = (0, 0) := by
    unfold effState
    rw [hu]
  refine ⟨h2, ?_, ?_⟩
  · rw [hmiss, List.filter_append, hmi, jsOrEmptyStr_str]
    simp
  · rw [getState_eff _ ha, heff, h0]
    norm_num

/-- C1 witness: the scenario at a concrete fresh database and address. -/
theorem mission_completed_single_witness :
    (("a1" : String) ≠ "" ∧ ("m1" : String) ≠ "" ∧
      emptyDB.userState.filter (fun r => r.addr == "a1") = [] ∧
      emptyDB.missions.filter (fun r => r.addr == "a1") = []) ∧
    ((missionCompleted emptyDB (some (.str "a1")) (some (.str "m1")) (some (.num 10))
        (some (.num 5)) (some (.str "report"))).2 = ⟨200, .obj [("ok", .bool true)]⟩ ∧
    ((missionCompleted emptyDB (some (.str "a1")) (some (.str "m1")) (some (.num 10))
        (some (.num 5)) (some (.str "report"))).1.missions.filter
        (fun r => r.addr == "a1")).map (fun r => (r.mission_id, r.report, r.reward, r.reputation))
      = [("m1", "report", some (10 : Rat), some (5 : Rat))] ∧
    getStateHandler (missionCompleted emptyDB (some (.str "a1")) (some (.str "m1"))
        (some (.num 10)) (some (.num 5)) (some (.str "report"))).1 "a1"
      = ⟨200, .obj [("addr", .str "a1"), ("credits", .num 10), ("reputation", .num 5)]⟩) :=
  ⟨⟨by decide, by decide, rfl, rfl⟩,
    mission_completed_single emptyDB "a1" "m1" "report" (by decide) (by decide) rfl rfl⟩

/-- C3: Calling the mission-completed operation twice with identical
arguments appends two history rows (with distinct ids but identical
payloads) and double-applies the deltas, so the state reads back twice the
single-call values. -/
theorem mission_completed_twice (db : DB) (a m rep : String) (rw rp : Rat)
    (ha : a ≠ "") (hm : m ≠ "")
    (hu : db.userState.filter (fun r => r.addr == a) = [])
    (hmi : db.missions.filter (fun r => r.addr == a) = []) :
    (((missionCompleted (missionCompleted db (some (.str a)) (some (.str m))
        (some (.num rw)) (some (.num rp)) (some (.str rep))).1 (some (.str a))
        (some (.str m)) (some (.num rw)) (some (.num rp)) (some (.str rep))).1.missions.filter
        (fun r => r.addr == a)).map (fun r => (r.mission_id, r.report, r.reward, r.reputation))
      = [(m, rep, some rw, some rp), (m, rep, some rw, some rp)]) ∧
    (((missionCompleted (missionCompleted db (some (.str a)) (some (.str m))
        (some (.num rw)) (some (.num rp)) (some (.str rep))).1 (some (.str a))
        (some (.str m)) (some (.num rw)) (some (.num rp)) (some (.str rep))).1.missions.filter
        (fun r => r.addr == a)).map (fun r => r.id)
      = [db.missionSeq + 1, db.missionSeq + 2]) ∧
    getStateHandler (missionCompleted (missionCompleted db (some (.str a)) (some (.str m))
        (some (.num rw)) (some (.num rp)) (some (.str rep))).1 (some (.str a)) (some (.str m))
        (some (.num rw)) (some (.num rp)) (some (.str rep))).1 a
      = ⟨200, .obj [("addr", .str a), ("credits", .num (rw + rw)),
          ("reputation", .num (rp + rp))]⟩ := by
  obtain ⟨h2a, hmiss1, hseq1, heff1⟩ :=
    missionCompleted_step db (some (.str rep)) rw rp ha hm
  obtain ⟨h2b, hmiss2, hseq2, heff2⟩ :=
    missionCompleted_step (missionCompleted db (some (.str a)) (some (.str m))
      (some (.num rw)) (some (.num rp)) (some (.str rep))).1 (some (.str rep)) rw rp ha hm
  have h0 : effState db.userState a = (0, 0) := by
    unfold effState
    rw [hu]
  have hfilter : ((missionCompleted (missionCompleted db (some (.str a)) (some (.str m))
      (some (.num rw)) (some (.num rp)) (some (.str rep))).1 (some (.str a)) (some (.str m))
      (some (.num rw)) (some (.num rp)) (some (.str rep))).1.missions.filter
      (fun r => r.addr == a))
      = [⟨db.missionSeq + 1, a, m, jsOrEmptyStr (some (.str rep)), some rw, some rp⟩,
         ⟨(missionCompleted db (some (.str a)) (some (.str m)) (some (.num rw))
           (some (.num rp)) (some (.str rep))).1.missionSeq + 1, a, m,
           jsOrEmptyStr (some (.str rep)), some rw, some rp⟩] := by
    rw [hmiss2, hmiss1, List.filter_append, List.filter_append, hmi]
    simp
  refine ⟨?_, ?_, ?_⟩
  · rw [hfilter, jsOrEmptyStr_str]
    simp
  · rw [hfilter, hseq1]
    simp
  · rw [getState_eff _ ha, heff2, heff1, h0]
    norm_num

/-- C3 witness: the doubling scenario at a concrete fresh database. -/
theorem mission_completed_twice_witness :
    (("a1" : String) ≠ "" ∧ ("m1" : String) ≠ "" ∧
      emptyDB.userState.filter (fun r => r.addr == "a1") = [] ∧
      emptyDB.missions.filter (fun r => r.addr == "a1") = []) ∧
    getStateHandler (missionCompleted (missionCompleted emptyDB (some (.str "a1"))
        (some (.str "m1")) (some (.num 10)) (some (.num 5)) (some (.str "r"))).1
        (some (.str "a1")) (some (.str "m1")) (some (.num 10)) (some (.num 5))
        (some (.str "r"))).1 "a1"
      = ⟨200, .obj [("addr", .str "a1"), ("credits", .num (10 + 10)),
          ("reputation", .num (5 + 5))]⟩ :=
  ⟨⟨by decide, by decide, rfl, rfl⟩,
    (mission_completed_twice emptyDB "a1" "m1" "r" 10 5 (by decide) (by decide) rfl rfl).2.2⟩

/-- A finite sequence of `applyDelta` calls for one address, applied in
order (each call is `addCreditsAndReputation` with JS-number deltas). -/
def applyDeltas (db : DB) (a : String) (l : List (Rat × Rat)) : DB :=
  l.foldl (fun d p => addCreditsAndReputation d (.str a) (some p.1) (some p.2)) db

lemma applyDeltas_eff {a : String} (ha : a ≠ "") :
    ∀ (l : List (Rat × Rat)) (db : DB),
      effState (applyDeltas db a l).userState a
        = ((effState db.userState a).1 + (l.map Prod.fst).sum,
           (effState db.userState a).2 + (l.map Prod.snd).sum) := by
  intro l
  induction l with
  | nil =>
    intro db
    simp [applyDeltas]
  | cons p rest ih =>
    intro db
    have hstep : applyDeltas db a (p :: rest)
        = applyDeltas (addCreditsAndReputation db (.str a) (some p.1) (some p.2)) a rest := rfl
    rw [hstep, ih, effState_add db ha]
    simp [add_assoc]

/-- C4 (amended): for every nonempty address with no prior `user_state`
row, a finite sequence of `applyDelta` calls yields exactly the
componentwise sums of the deltas, and any permutation of the sequence
yields the same final state. -/
theorem applyDeltas_sum_perm (db : DB) (a : String) (l l2 : List (Rat × Rat))
    (ha : a ≠ "") (hu : db.userState.filter (fun r => r.addr == a) = [])
    (hperm : l.Perm l2) :
    getStateHandler (applyDeltas db a l) a
      = ⟨200, .obj [("addr", .str a), ("credits", .num ((l.map Prod.fst).sum)),
          ("reputation", .num ((l.map Prod.snd).sum))]⟩ ∧
    getStateHandler (applyDeltas db a l2) a = getStateHandler (applyDeltas db a l) a := by
  have h0 : effState db.userState a = (0, 0) := by
    unfold effState
    rw [hu]
  have hmain : ∀ k : List (Rat × Rat), getStateHandler (applyDeltas db a k) a
      = ⟨200, .obj [("addr", .str a), ("credits", .num ((k.map Prod.fst).sum)),
          ("reputation", .num ((k.map Prod.snd).sum))]⟩ := by
    intro k
    rw [getState_eff _ ha, applyDeltas_eff ha k db, h0]
    norm_num
  refine ⟨hmain l, ?_⟩
  rw [hmain l, hmain l2, (hperm.map Prod.fst).sum_eq, (hperm.map Prod.snd).sum_eq]

/-- C4 witness: two concrete permuted delta sequences on a fresh store. -/
theorem applyDeltas_sum_perm_witness :
    (("a" : String) ≠ "" ∧ emptyDB.userState.filter (fun r => r.addr == "a") = [] ∧
      List.Perm [((10 : Rat), (5 : Rat)), ((1 : Rat), (2 : Rat))]
        [((1 : Rat), (2 : Rat)), ((10 : Rat), (5 : Rat))]) ∧
    (getStateHandler (applyDeltas emptyDB "a"
        [((10 : Rat), (5 : Rat)), ((1 : Rat), (2 : Rat))]) "a"
      = ⟨200, .obj [("addr", .str "a"),
          ("credits", .num (([((10 : Rat), (5 : Rat)), ((1 : Rat), (2 : Rat))].map
            Prod.fst).sum)),
          ("reputation", .num (([((10 : Rat), (5 : Rat)), ((1 : Rat), (2 : Rat))].map
            Prod.snd).sum))]⟩ ∧
      getStateHandler (applyDeltas emptyDB "a"
          [((1 : Rat), (2 : Rat)), ((10 : Rat), (5 : Rat))]) "a"
        = getStateHandler (applyDeltas emptyDB "a"
            [((10 : Rat), (5 : Rat)), ((1 : Rat), (2 : Rat))]) "a") :=
  ⟨⟨by decide, rfl, List.Perm.swap _ _ _⟩,
    applyDeltas_sum_perm emptyDB "a" _ _ (by decide) rfl (List.Perm.swap _ _ _)⟩

/-- C4 counterexample: for the empty-string address the truthiness guard
in `ensureWalletRow` inserts nothing and the update matches no row, so
`applyDelta("", 10, 5)` leaves no state row at all and the subsequent
state read errors instead of answering the sums. -/
theorem applyDeltas_empty_addr_cex :
    (applyDeltas emptyDB "" [((10 : Rat), (5 : Rat))]).userState = [] ∧
    (getStateHandler (applyDeltas emptyDB "" [((10 : Rat), (5 : Rat))]) "").status = 400 :=
  ⟨rfl, rfl⟩

/-- C5 (amended): querying the state of a nonempty address for which no
`user_state` row exists succeeds with zero credits and reputation. -/
theorem getState_unseen (db : DB) (a : String) (ha : a ≠ "")
    (hu : db.userState.filter (fun r => r.addr == a) = []) :
    getStateHandler db a
      = ⟨200, .obj [("addr", .str a), ("credits", .num 0), ("reputation", .num 0)]⟩ := by
  rw [getState_eff _ ha]
  unfold effState
  rw [hu]

/-- C5 witness: a concrete never-seen address on a fresh store. -/
theorem getState_unseen_witness :
    (("z" : String) ≠ "" ∧ emptyDB.userState.filter (fun r => r.addr == "z") = []) ∧
    getStateHandler emptyDB "z"
      = ⟨200, .obj [("addr", .str "z"), ("credits", .num 0), ("reputation", .num 0)]⟩ :=
  ⟨⟨by decide, rfl⟩, getState_unseen emptyDB "z" (by decide) rfl⟩

/-- C5 counterexample: the empty-string address has never been seen, yet
the state endpoint rejects it with 400 instead of succeeding with zeros. -/
theorem getState_empty_addr_cex :
    emptyDB.userState.filter (fun r => r.addr == "") = [] ∧
    (getStateHandler emptyDB "").status = 400 ∧ (getStateHandler emptyDB "").status ≠ 200 :=
  ⟨rfl, rfl, by decide⟩

lemma insertUserStateIgnore_wallets (db : DB) (a : String) :
    (insertUserStateIgnore db a).wallets = db.wallets := by
  unfold insertUserStateIgnore; split <;> rfl

lemma insertWalletIgnore_wallets (db : DB) (a : String) :
    (insertWalletIgnore db a).wallets
      = if db.wallets.contains a then db.wallets else db.wallets ++ [a] := by
  unfold insertWalletIgnore; split <;> simp_all

lemma ensureWalletRow_wallets (db : DB) {a : String} (ha : a ≠ "") :
    (ensureWalletRow db (.str a)).wallets
      = if db.wallets.contains a then db.wallets else db.wallets ++ [a] := by
  unfold ensureWalletRow
  rw [jtruthy_str_of_ne ha]
  simp only [Bool.not_true, Bool.false_eq_true, if_false]
  rw [show jsToString (.str a) = a from rfl,
    insertUserStateIgnore_wallets, insertWalletIgnore_wallets]

lemma ensureWalletRow_noop (db : DB) {a : String} (ha : a ≠ "")
    (hc : db.wallets.contains a = true)
    (hany : db.userState.any (fun r => r.addr == a) = true) :
    ensureWalletRow db (.str a) = db := by
  unfold ensureWalletRow
  rw [jtruthy_str_of_ne ha]
  simp only [Bool.not_true, Bool.false_eq_true, if_false]
  rw [show jsToString (.str a) = a from rfl]
  unfold insertWalletIgnore
  rw [hc]
  simp only [if_true]
  unfold insertUserStateIgnore
  rw [hany]
  simp only [if_true]

/-- C6 (amended): for a nonempty address with no existing rows,
`ensureWalletRow` inserts exactly one wallet row and one zero-valued
`user_state` row, and calling it again is a no-op that changes nothing. -/
theorem ensureWallet_idempotent (db : DB) (a : String) (ha : a ≠ "")
    (hw : db.wallets.contains a = false)
    (hu : db.userState.any (fun r => r.addr == a) = false) :
    (ensureWalletRow db (.str a)).wallets.count a = 1 ∧
    (ensureWalletRow db (.str a)).userState.filter (fun r => r.addr == a) = [zeroRow a] ∧
    ensureWalletRow (ensureWalletRow db (.str a)) (.str a) = ensureWalletRow db (.str a) := by
  have hnm : a ∉ db.wallets := by simpa using hw
  have hfu : db.userState.filter (fun r => r.addr == a) = [] := by
    rw [List.filter_eq_nil_iff]
    intro x hx
    simpa using List.any_eq_false.mp hu x hx
  have hwallets : (ensureWalletRow db (.str a)).wallets = db.wallets ++ [a] := by
    rw [ensureWalletRow_wallets db ha, hw]
    simp
  have hustate : (ensureWalletRow db (.str a)).userState
      = db.userState ++ [zeroRow a] := by
    rw [ensureWalletRow_userState db ha, hu]
    simp
  have hfil : (ensureWalletRow db (.str a)).userState.filter (fun r => r.addr == a)
      = [zeroRow a] := by
    rw [hustate, List.filter_append, hfu]
    simp [zeroRow]
  refine ⟨?_, hfil, ?_⟩
  · rw [hwallets, List.count_append, List.count_eq_zero_of_not_mem hnm]
    simp
  · have hc1 : (ensureWalletRow db (.str a)).wallets.contains a = true := by
      rw [hwallets]
      simp
    have hany : (ensureWalletRow db (.str a)).userState.any (fun r => r.addr == a) = true := by
      rw [List.any_eq_true]
      have hmem : zeroRow a ∈ (ensureWalletRow db (.str a)).userState.filter
          (fun r => r.addr == a) := by
        rw [hfil]
        exact List.mem_cons_self _ _
      obtain ⟨hmem2, hp⟩ := List.mem_filter.mp hmem
      exact ⟨zeroRow a, hmem2, hp⟩
    exact ensureWalletRow_noop _ ha hc1 hany

/-- C6 witness: a concrete fresh address on an empty store. -/
theorem ensureWallet_idempotent_witness :
    (("w1" : String) ≠ "" ∧ emptyDB.wallets.contains "w1" = false ∧
      emptyDB.userState.any (fun r => r.addr == "w1") = false) ∧
    ((ensureWalletRow emptyDB (.str "w1")).wallets.count "w1" = 1 ∧
    (ensureWalletRow emptyDB (.str "w1")).userState.filter (fun r => r.addr == "w1")
      = [zeroRow "w1"] ∧
    ensureWalletRow (ensureWalletRow emptyDB (.str "w1")) (.str "w1")
      = ensureWalletRow emptyDB (.str "w1")) :=
  ⟨⟨by decide, rfl, rfl⟩,
    ensureWallet_idempotent emptyDB "w1" (by decide) rfl rfl⟩

/-- C6 counterexample: for the empty-string address the truthiness guard
makes the call a no-op even though the rows are absent, so no wallet row
and no `user_state` row are inserted. -/
theorem ensureWallet_empty_addr_cex :
    ensureWalletRow emptyDB (.str "") = emptyDB ∧
    (ensureWalletRow emptyDB (.str "")).wallets.count "" ≠ 1 ∧
    (ensureWalletRow emptyDB (.str "")).userState.length = 0 :=
  ⟨rfl, by decide, rfl⟩

/-! ### Claim theorems: Gateway Client and proxy endpoints -/

lemma callFone_fail (cfg : FoneConfig) (remote : FoneRequest → FoneResponse)
    (path method : String) (body : Option Json)
    (hc : foneConfigured cfg = true)
    (hr : resOk (remote (mkFoneRequest cfg path method body)) = false) :
    callFone cfg remote path method body
      = .error (foneFailMsg (remote (mkFoneRequest cfg path method body))) := by
  unfold callFone
  rw [hc]
  simp only [Bool.not_true, Bool.false_eq_true, if_false]
  rw [hr]
  simp

lemma jsGetProp_ok (v : Json) (k : String) (h : v ≠ .null) :
    jsGetProp v k = .ok (getField v k) := by
  cases v <;> simp_all [jsGetProp, getField]

lemma foneDerivedMsg_cases (e : Option Json) (r : FoneResponse) :
    foneDerivedMsg e r = jsToString (e.getD .null) ∨
    foneDerivedMsg e r = r.statusText ∨
    foneDerivedMsg e r = "HTTP " ++ toString r.status := by
  unfold foneDerivedMsg
  cases e with
  | some ej =>
    by_cases ht : jtruthy ej = true
    · left
      simp [ht]
    · rw [Bool.not_eq_true] at ht
      by_cases hst : (r.statusText != "") = true
      · right; left
        simp [ht, hst]
      · rw [Bool.not_eq_true] at hst
        right; right
        simp [ht, hst]
  | none =>
    by_cases hst : (r.statusText != "") = true
    · right; left
      simp [hst]
    · rw [Bool.not_eq_true] at hst
      right; right
      simp [hst]

lemma foneFailMsg_cases_of_ne (r : FoneResponse) (h : foneData r ≠ .null) :
    foneFailMsg r = jsToString ((getField (foneData r) "error").getD .null) ∨
    foneFailMsg r = r.statusText ∨
    foneFailMsg r = "HTTP " ++ toString r.status := by
  unfold foneFailMsg
  rw [jsGetProp_ok (foneData r) "error" h]
  exact foneDerivedMsg_cases (getField (foneData r) "error") r

lemma foneFailMsg_cases (r : FoneResponse) :
    foneFailMsg r = jsToString ((getField (foneData r) "error").getD .null) ∨
    foneFailMsg r = r.statusText ∨
    foneFailMsg r = "HTTP " ++ toString r.status ∨
    (foneData r = .null ∧ foneFailMsg r = typeErrorNullRead "error") := by
  by_cases hd : foneData r = .null
  · right; right; right
    refine ⟨hd, ?_⟩
    unfold foneFailMsg
    rw [hd]
    rfl
  · rcases foneFailMsg_cases_of_ne r hd with h | h | h
    · left; exact h
    · right; left; exact h
    · right; right; left; exact h

/-- C2 (amended): a failed Gateway Client call fails with a message that
is a function of the remote response alone — the remote `error` field,
else the status phrase, else "HTTP <code>", except that a JSON-null parsed
body makes the `data.error` read itself throw and the fixed TypeError text
becomes the message — and the wallet-create proxy answers 500 with a fixed
generic body; none of these can carry the configured base URL or API
key. -/
theorem fone_error_sanitized (cfg : FoneConfig) (remote : FoneRequest → FoneResponse)
    (path method : String) (body : Option Json) (db : DB)
    (hc : foneConfigured cfg = true)
    (hr : ∀ q, resOk (remote q) = false) :
    callFone cfg remote path method body
      = .error (foneFailMsg (remote (mkFoneRequest cfg path method body))) ∧
    (∀ r : FoneResponse,
      foneFailMsg r = jsToString ((getField (foneData r) "error").getD .null) ∨
      foneFailMsg r = r.statusText ∨
      foneFailMsg r = "HTTP " ++ toString r.status ∨
      (foneData r = .null ∧ foneFailMsg r = typeErrorNullRead "error")) ∧
    (∀ r : FoneResponse, foneData r ≠ .null →
      (foneFailMsg r = jsToString ((getField (foneData r) "error").getD .null) ∨
       foneFailMsg r = r.statusText ∨
       foneFailMsg r = "HTTP " ++ toString r.status)) ∧
    walletCreateHandler cfg remote db
      = (db, ⟨500, .obj [("error", .str "Fone API error (create wallet)")]⟩) := by
  refine ⟨callFone_fail cfg remote path method body hc (hr _), foneFailMsg_cases,
    foneFailMsg_cases_of_ne, ?_⟩
  unfold walletCreateHandler
  rw [callFone_fail cfg remote _ _ _ hc (hr _)]

/-- C2 witness: a remote answering plain HTTP 500 with an empty body; the
call fails with the status phrase and the wallet-create endpoint answers
the fixed body. -/
theorem fone_error_sanitized_witness :
    callFone ⟨some "http://node", some "KEY"⟩
        (fun _ => ⟨500, "Internal Server Error", "", none⟩) "/p" "POST" none
      = .error "Internal Server Error" ∧
    walletCreateHandler ⟨some "http://node", some "KEY"⟩
        (fun _ => ⟨500, "Internal Server Error", "", none⟩) emptyDB
      = (emptyDB, ⟨500, .obj [("error", .str "Fone API error (create wallet)")]⟩) :=
  ⟨(fone_error_sanitized ⟨some "http://node", some "KEY"⟩
      (fun _ => ⟨500, "Internal Server Error", "", none⟩) "/p" "POST" none emptyDB
      rfl (fun _ => rfl)).1,
   (fone_error_sanitized ⟨some "http://node", some "KEY"⟩
      (fun _ => ⟨500, "Internal Server Error", "", none⟩) "/p" "POST" none emptyDB
      rfl (fun _ => rfl)).2.2.2⟩

/-- C2 counterexample: a failed response whose body text is "null" parses
to JSON `null`, so `data.error` throws and the caller sees the TypeError
text — which is none of the three derived-message candidates (error field,
status phrase, "HTTP <code>") the claim allows. -/
theorem fone_null_body_cex :
    callFone ⟨some "http://node", some "KEY"⟩
        (fun _ => ⟨500, "Internal Server Error", "null", some .null⟩) "/p" "POST" none
      = .error (typeErrorNullRead "error") ∧
    typeErrorNullRead "error"
      ≠ jsToString ((getField (foneData ⟨500, "Internal Server Error", "null",
          some .null⟩) "error").getD .null) ∧
    typeErrorNullRead "error" ≠ ("Internal Server Error" : String) ∧
    typeErrorNullRead "error" ≠ "HTTP " ++ toString (500 : Nat) :=
  ⟨rfl, by decide, by decide, by decide⟩

/-- C7: when either credential is not configured, every Gateway Client
call fails immediately with the fixed not-configured error, and the result
does not depend on the remote at all — no request is issued. -/
theorem fone_not_configured (cfg : FoneConfig)
    (remote remote2 : FoneRequest → FoneResponse) (path method : String)
    (body : Option Json)
    (h : truthyEnv cfg.baseUrl = false ∨ truthyEnv cfg.sdkKey = false) :
    callFone cfg remote path method body = .error foneNotConfiguredMsg ∧
    callFone cfg remote path method body = callFone cfg remote2 path method body := by
  have hc : foneConfigured cfg = false := by
    unfold foneConfigured
    rcases h with h | h <;> simp [h]
  constructor <;> (unfold callFone; rw [hc]; simp)

/-- C7 witness: an unset base URL with two different remotes. -/
theorem fone_not_configured_witness :
    truthyEnv (none : Option String) = false ∧
    callFone ⟨none, some "KEY"⟩ (fun _ => ⟨200, "OK", "", none⟩) "/p" "GET" none
      = .error foneNotConfiguredMsg ∧
    callFone ⟨none, some "KEY"⟩ (fun _ => ⟨200, "OK", "", none⟩) "/p" "GET" none
      = callFone ⟨none, some "KEY"⟩ (fun _ => ⟨500, "ERR", "", none⟩) "/p" "GET" none :=
  ⟨rfl, (fone_not_configured ⟨none, some "KEY"⟩ (fun _ => ⟨200, "OK", "", none⟩)
      (fun _ => ⟨500, "ERR", "", none⟩) "/p" "GET" none (Or.inl rfl)).1,
    (fone_not_configured ⟨none, some "KEY"⟩ (fun _ => ⟨200, "OK", "", none⟩)
      (fun _ => ⟨500, "ERR", "", none⟩) "/p" "GET" none (Or.inl rfl)).2⟩

/-- C8 (amended): a transaction-send request with a missing privateKey,
recipient or amount is rejected with 400 and the field-naming error body
before any remote call (the response does not depend on the remote); when
all three are present and truthy, the request is delegated with a payload
whose `amount` is the `Number(...)` coercion of the given amount and which
carries `message` only when the message is truthy. -/
theorem transaction_send_validation (cfg : FoneConfig)
    (remote remote2 : FoneRequest → FoneResponse)
    (pk rec amt msg : Option Json)
    (hpk : otruthy pk = true) (hrec : otruthy rec = true) (hamt : otruthy amt = true) :
    (∀ p am m, sendHandler cfg remote p none am m
        = ⟨400, .obj [("error", .str "privateKey, recipient and amount are required")]⟩ ∧
      sendHandler cfg remote p none am m = sendHandler cfg remote2 p none am m) ∧
    (∀ rc am m, sendHandler cfg remote none rc am m
        = ⟨400, .obj [("error", .str "privateKey, recipient and amount are required")]⟩ ∧
      sendHandler cfg remote none rc am m = sendHandler cfg remote2 none rc am m) ∧
    (∀ p rc m, sendHandler cfg remote p rc none m
        = ⟨400, .obj [("error", .str "privateKey, recipient and amount are required")]⟩ ∧
      sendHandler cfg remote p rc none m = sendHandler cfg remote2 p rc none m) ∧
    (sendHandler cfg remote pk rec amt msg
      = match callFone cfg remote "/v1/transaction/send" "POST"
          (some (sendPayload (pk.getD .null) (rec.getD .null) (amt.getD .null) msg)) with
        | .ok d => ⟨200, d⟩
        | .error _ => ⟨500, .obj [("error", .str "Fone API error (send)")]⟩) ∧
    getField (sendPayload (pk.getD .null) (rec.getD .null) (amt.getD .null) msg) "amount"
      = some (jsNumToJson (jsNumber (amt.getD .null))) ∧
    getField (sendPayload (pk.getD .null) (rec.getD .null) (amt.getD .null) msg) "message"
      = (match msg with
         | some mj => if jtruthy mj then some mj else none
         | none => none) := by
  refine ⟨?_, ?_, ?_, ?_, ?_, ?_⟩
  · intro p am m
    constructor <;> simp [sendHandler, otruthy]
  · intro rc am m
    constructor <;> simp [sendHandler, otruthy]
  · intro p rc m
    constructor <;> simp [sendHandler, otruthy]
  · unfold sendHandler
    rw [hpk, hrec, hamt]
    simp
  · rfl
  · cases msg with
    | none => rfl
    | some mj =>
      cases h : jtruthy mj with
      | true =>
        simp only [sendPayload, getField, h, if_true]
        rfl
      | false =>
        simp only [sendPayload, getField, h, Bool.false_eq_true, if_false]
        rfl

/-- C8 witness: a concrete fully-populated request delegated with the
coerced amount and no message. -/
theorem transaction_send_validation_witness :
    (otruthy (some (.str "k")) = true ∧ otruthy (some (.str "r")) = true ∧
      otruthy (some (.str "2")) = true) ∧
    (sendHandler ⟨some "http://node", some "KEY"⟩ (fun _ => ⟨200, "OK", "{}", some (.obj [])⟩)
        (some (.str "k")) (some (.str "r")) (some (.str "2")) none
      = match callFone ⟨some "http://node", some "KEY"⟩
          (fun _ => ⟨200, "OK", "{}", some (.obj [])⟩) "/v1/transaction/send" "POST"
          (some (sendPayload (.str "k") (.str "r") (.str "2") none)) with
        | .ok d => ⟨200, d⟩
        | .error _ => ⟨500, .obj [("error", .str "Fone API error (send)")]⟩) ∧
    getField (sendPayload (.str "k") (.str "r") (.str "2") none) "amount"
      = some (jsNumToJson (jsNumber (.str "2"))) ∧
    getField (sendPayload (.str "k") (.str "r") (.str "2") none) "message" = none :=
  ⟨⟨rfl, rfl, rfl⟩,
    (transaction_send_validation ⟨some "http://node", some "KEY"⟩
      (fun _ => ⟨200, "OK", "{}", some (.obj [])⟩) (fun _ => ⟨200, "OK", "{}", some (.obj [])⟩)
      (some (.str "k")) (some (.str "r")) (some (.str "2")) none rfl rfl rfl).2.2.2.1,
    (transaction_send_validation ⟨some "http://node", some "KEY"⟩
      (fun _ => ⟨200, "OK", "{}", some (.obj [])⟩) (fun _ => ⟨200, "OK", "{}", some (.obj [])⟩)
      (some (.str "k")) (some (.str "r")) (some (.str "2")) none rfl rfl rfl).2.2.2.2.1,
    (transaction_send_validation ⟨some "http://node", some "KEY"⟩
      (fun _ => ⟨200, "OK", "{}", some (.obj [])⟩) (fun _ => ⟨200, "OK", "{}", some (.obj [])⟩)
      (some (.str "k")) (some (.str "r")) (some (.str "2")) none rfl rfl rfl).2.2.2.2.2⟩

/-- C8 counterexample: every required field is present (amount is 0) and
the remote is healthy, yet the request is rejected with 400 and not
delegated — presence of the fields is not sufficient. -/
theorem transaction_send_present_zero_cex :
    sendHandler ⟨some "http://node", some "KEY"⟩ (fun _ => ⟨200, "OK", "{}", some (.obj [])⟩)
        (some (.str "k")) (some (.str "r")) (some (.num 0)) none
      = ⟨400, .obj [("error", .str "privateKey, recipient and amount are required")]⟩ ∧
    (sendHandler ⟨some "http://node", some "KEY"⟩ (fun _ => ⟨200, "OK", "{}", some (.obj [])⟩)
        (some (.str "k")) (some (.str "r")) (some (.num 0)) none).status ≠ 200 :=
  ⟨rfl, by decide⟩

/-- C9: required fields of the transaction-send endpoint are checked by
truthiness, not presence: a present amount of 0 or an empty privateKey or
recipient is rejected with 400 independently of the remote, and an
empty-string message is not forwarded (the call behaves exactly as if no
message were supplied). -/
theorem transaction_send_truthiness (cfg : FoneConfig)
    (remote remote2 : FoneRequest → FoneResponse) :
    (∀ p rc m, sendHandler cfg remote p rc (some (.num 0)) m
        = ⟨400, .obj [("error", .str "privateKey, recipient and amount are required")]⟩ ∧
      sendHandler cfg remote p rc (some (.num 0)) m
        = sendHandler cfg remote2 p rc (some (.num 0)) m) ∧
    (∀ rc am m, sendHandler cfg remote (some (.str "")) rc am m
        = ⟨400, .obj [("error", .str "privateKey, recipient and amount are required")]⟩ ∧
      sendHandler cfg remote (some (.str "")) rc am m
        = sendHandler cfg remote2 (some (.str "")) rc am m) ∧
    (∀ p am m, sendHandler cfg remote p (some (.str "")) am m
        = ⟨400, .obj [("error", .str "privateKey, recipient and amount are required")]⟩ ∧
      sendHandler cfg remote p (some (.str "")) am m
        = sendHandler cfg remote2 p (some (.str "")) am m) ∧
    (∀ p rc am, sendHandler cfg remote p rc am (some (.str ""))
        = sendHandler cfg remote p rc am none) := by
  refine ⟨?_, ?_, ?_, ?_⟩
  · intro p rc m
    constructor <;> simp [sendHandler, otruthy, jtruthy]
  · intro rc am m
    constructor <;> simp [sendHandler, otruthy, jtruthy]
  · intro p am m
    constructor <;> simp [sendHandler, otruthy, jtruthy]
  · intro p rc am
    simp [sendHandler, sendPayload, jtruthy]

/-- C10: the health endpoint always answers 200 with `ok: true` for every
configuration and probe outcome; `dbOk` is true exactly when a connection
string is configured and the probe succeeded (a thrown probe only makes it
false), and the two configuration flags are reported independently. -/
theorem health_always_ok (cfg : FoneConfig) (dbUrl : Option String)
    (probe : Except String Unit) :
    (healthHandler cfg dbUrl probe).status = 200 ∧
    getField (healthHandler cfg dbUrl probe).body "ok" = some (.bool true) ∧
    getField (healthHandler cfg dbUrl probe).body "foneConfigured"
      = some (.bool (foneConfigured cfg)) ∧
    getField (healthHandler cfg dbUrl probe).body "dbConfigured"
      = some (.bool (truthyEnv dbUrl)) ∧
    getField (healthHandler cfg dbUrl probe).body "dbOk"
      = some (.bool (truthyEnv dbUrl &&
          (match probe with | .ok _ => true | .error _ => false))) := by
  refine ⟨rfl, rfl, rfl, rfl, ?_⟩
  cases h : truthyEnv dbUrl <;>
    simp [healthHandler, getField, List.lookup, h]
